import Mathlib

/-!
Shallow embedding of the bookstore server (`src/server.js`): the relational
data model (members, books, cart, orders, odetails), the JavaScript value
coercions used by the cart endpoint, and the request handlers for
registration, cart, checkout, order lookup and catalog search, followed by
theorems about them.  Monetary values are exact rationals (the store's
DECIMAL columns); db calls are numbered so that a single fallible statement
can be injected where a claim is about partial failure.
-/

/-- JavaScript value supplied as the `qty` field of a request body: either a
finite number or a string.  Nonfinite literals such as `Infinity` are outside
the model. -/
inductive JSQty where
  | num (q : ℚ)
  | str (s : String)
  deriving DecidableEq

/-- Numeric value of a list of decimal digit characters. -/
def digitsToNat (ds : List Char) : Nat :=
  ds.foldl (fun a c => 10 * a + (c.toNat - 48)) 0

/-- Hexadecimal digit test. -/
def isHexDig (c : Char) : Bool :=
  c.isDigit || (('a' ≤ c.toLower) && (c.toLower ≤ 'f'))

/-- Value of one hexadecimal digit character. -/
def hexDigitVal (c : Char) : Nat :=
  if c.isDigit then c.toNat - 48 else c.toLower.toNat - 87

/-- Numeric value of a list of hexadecimal digit characters. -/
def hexDigitsToNat (ds : List Char) : Nat :=
  ds.foldl (fun a c => 16 * a + hexDigitVal c) 0

/-- Whitespace trimming as performed by JS ToNumber and parseInt before
parsing (ASCII whitespace characters). -/
def trimChars (cs : List Char) : List Char :=
  ((cs.dropWhile Char.isWhitespace).reverse.dropWhile Char.isWhitespace).reverse

/-- Unsigned part of the ECMAScript StrDecimalLiteral grammar:
`digits [. digits] [e sign digits]` or `. digits [e sign digits]`, consuming
the whole input; `none` models NaN. -/
def jsDecLiteral (cs : List Char) : Option ℚ :=
  let intPart := cs.takeWhile Char.isDigit
  let r1 := cs.dropWhile Char.isDigit
  let fracPart :=
    match r1 with
    | '.' :: r => r.takeWhile Char.isDigit
    | _ => []
  let r2 :=
    match r1 with
    | '.' :: r => r.dropWhile Char.isDigit
    | r => r
  if intPart.isEmpty && fracPart.isEmpty then none
  else
    let base : ℚ := (digitsToNat intPart : ℚ) +
      (digitsToNat fracPart : ℚ) / ((10 : ℚ) ^ fracPart.length)
    match r2 with
    | [] => some base
    | e :: r3 =>
      if e = 'e' || e = 'E' then
        let eSign : Bool :=
          match r3 with
          | '-' :: _ => false
          | _ => true
        let r4 :=
          match r3 with
          | '+' :: r => r
          | '-' :: r => r
          | r => r
        if !r4.isEmpty && r4.all Char.isDigit then
          let ex := digitsToNat r4
          some (if eSign then base * (10 : ℚ) ^ ex else base / (10 : ℚ) ^ ex)
        else none
      else none

/-- ECMAScript ToNumber on a string (decimal and hex fragments of the
StringNumericLiteral grammar; `none` models NaN; the empty or all-whitespace
string coerces to 0). -/
def jsStrToNumber (s : String) : Option ℚ :=
  let cs := trimChars s.data
  if cs.isEmpty then some 0
  else
    match cs with
    | '0' :: 'x' :: rest =>
      if !rest.isEmpty && rest.all isHexDig then some (hexDigitsToNat rest) else none
    | '0' :: 'X' :: rest =>
      if !rest.isEmpty && rest.all isHexDig then some (hexDigitsToNat rest) else none
    | _ =>
      let sign : ℚ :=
        match cs with
        | '-' :: _ => -1
        | _ => 1
      let cs1 :=
        match cs with
        | '+' :: r => r
        | '-' :: r => r
        | r => r
      (jsDecLiteral cs1).map (fun v => sign * v)

/-- ECMAScript parseInt with no radix argument, on a string: trim, optional
sign, then leading hex (after `0x`) or decimal digits, ignoring any trailing
garbage; `none` models NaN. -/
def jsParseIntStr (s : String) : Option ℤ :=
  let cs := trimChars s.data
  let sign : ℤ :=
    match cs with
    | '-' :: _ => -1
    | _ => 1
  let cs1 :=
    match cs with
    | '+' :: r => r
    | '-' :: r => r
    | r => r
  match cs1 with
  | '0' :: 'x' :: rest =>
    let ds := rest.takeWhile isHexDig
    if ds.isEmpty then none else some (sign * (hexDigitsToNat ds : ℤ))
  | '0' :: 'X' :: rest =>
    let ds := rest.takeWhile isHexDig
    if ds.isEmpty then none else some (sign * (hexDigitsToNat ds : ℤ))
  | _ =>
    let ds := cs1.takeWhile Char.isDigit
    if ds.isEmpty then none else some (sign * (digitsToNat ds : ℤ))

/-- Truncation toward zero: the value of JS parseInt applied to a finite
number whose default string form is a plain decimal numeral. -/
def jsTrunc (q : ℚ) : ℤ :=
  if 0 ≤ q then ⌊q⌋ else -⌊-q⌋

/-- JS ToNumber of a qty value (`none` models NaN). -/
def jsToNumber : JSQty → Option ℚ
  | .num q => some q
  | .str s => jsStrToNumber s

/-- JS truthiness test for `!qty`: the number 0 and the empty string are
falsy. -/
def jsFalsy : JSQty → Bool
  | .num q => q == 0
  | .str s => s == ""

/-- JS comparison `qty < 1`: both operands go through ToNumber and a NaN
operand makes the comparison false. -/
def jsLtOne (v : JSQty) : Bool :=
  match jsToNumber v with
  | some q => decide (q < 1)
  | none => false

/-- JS parseInt applied to the qty value. -/
def jsParseInt : JSQty → Option ℤ
  | .num q => some (jsTrunc q)
  | .str s => jsParseIntStr s

example : jsStrToNumber "3" = some 3 := by simp [jsStrToNumber, trimChars, jsDecLiteral, digitsToNat]
example : jsStrToNumber ".5e1" = some 5 := by simp [jsStrToNumber, trimChars, jsDecLiteral, digitsToNat]
example : jsParseIntStr ".5e1" = none := rfl
example : jsParseIntStr "3" = some 3 := rfl
example : jsStrToNumber "1.5" = some (3 / 2 : ℚ) := by simp [jsStrToNumber, trimChars, jsDecLiteral, digitsToNat]; norm_num
example : jsParseIntStr "0x10" = some 16 := rfl
example : jsStrToNumber "0x10" = some 16 := rfl
example : jsStrToNumber "2x" = none := rfl
example : jsTrunc (3 / 2 : ℚ) = 1 := by simp [jsTrunc]; norm_num

/-- Row of the `members` table (`zip` is stored through `parseInt(zip)`;
the bcrypt hash of the password is stored, abstracted as a function
parameter of `register`). -/
structure Member where
  userid : Nat
  fname : String
  lname : String
  address : String
  city : String
  zip : ℤ
  phone : String
  email : String
  password : String
  deriving DecidableEq

/-- Row of the `books` table; the price is an exact decimal. -/
structure Book where
  isbn : String
  title : String
  author : String
  subject : String
  price : ℚ
  deriving DecidableEq

/-- Row of the `cart` table. -/
structure CartLine where
  userid : Nat
  isbn : String
  qty : ℤ
  deriving DecidableEq

/-- Row of the `orders` table (`created` is the value of CURDATE() at
checkout time; ship fields are copied from the member row). -/
structure Order where
  ono : Nat
  userid : Nat
  created : Nat
  shipAddress : String
  shipCity : String
  shipZip : ℤ
  deriving DecidableEq

/-- Row of the `odetails` table. -/
structure ODetail where
  ono : Nat
  isbn : String
  qty : ℤ
  amount : ℚ
  deriving DecidableEq

/-- The relational database: one list per table, plus the AUTO_INCREMENT
counters that produce fresh `userid` and `ono` keys. -/
structure Store where
  members : List Member
  books : List Book
  cart : List CartLine
  orders : List Order
  odetails : List ODetail
  nextUserId : Nat
  nextOno : Nat
  deriving DecidableEq

/-- Observable outcome of a failed request, one constructor per distinct
response body of `server.js`. -/
inductive ApiError where
  | notLoggedIn
  | invalidEmailFormat
  | invalidZip
  | shortPassword
  | emailExists
  | invalidQuantity
  | cartAddFailed
  | cartEmpty
  | checkoutFailed
  | orderNotFound
  deriving DecidableEq

/-- WHERE clause of the cart queries: `userid = ? AND isbn = ?`. -/
def cartKey (uid : Nat) (isbn : String) (l : CartLine) : Bool :=
  l.userid == uid && l.isbn == isbn

/-- Result of the add-to-cart endpoint: response, resulting table state, and
the number of db statements that were issued (used to show validation
failures never reach the store). -/
structure AddResult where
  res : Except ApiError Unit
  store : Store
  dbCalls : Nat

/-- POST /api/cart: session check, JS validation `!qty || qty < 1`, then a
SELECT for an existing line followed by either `UPDATE cart SET qty = qty +
parseInt(qty)` or `INSERT ... VALUES (userid, isbn, parseInt(qty))`.  A NaN
`parseInt(qty)` makes the SQL statement fail, which the handler reports as
its generic 500 response. -/
def addToCart (s : Store) (session : Option Nat) (isbn : String) (qty : JSQty) :
    AddResult :=
  match session with
  | none => ⟨.error .notLoggedIn, s, 0⟩
  | some uid =>
    if jsFalsy qty || jsLtOne qty then ⟨.error .invalidQuantity, s, 0⟩
    else
      let existing := s.cart.filter (cartKey uid isbn)
      if existing.isEmpty then
        match jsParseInt qty with
        | none => ⟨.error .cartAddFailed, s, 2⟩
        | some n => ⟨.ok (), { s with cart := s.cart ++ [⟨uid, isbn, n⟩] }, 2⟩
      else
        match jsParseInt qty with
        | none => ⟨.error .cartAddFailed, s, 2⟩
        | some n =>
          ⟨.ok (),
           { s with cart :=
              s.cart.map (fun l =>
                if cartKey uid isbn l then { l with qty := l.qty + n } else l) },
           2⟩

/-- Row shape returned by GET /api/cart. -/
structure CartView where
  isbn : String
  qty : ℤ
  title : String
  price : ℚ
  total : ℚ
  deriving DecidableEq

/-- GET /api/cart: the user's cart lines inner-joined with `books`. -/
def getCart (s : Store) (session : Option Nat) : Except ApiError (List CartView) :=
  match session with
  | none => .error .notLoggedIn
  | some uid =>
    .ok ((s.cart.filter (fun c => c.userid == uid)).flatMap (fun c =>
      (s.books.filter (fun b => b.isbn == c.isbn)).map (fun b =>
        ⟨c.isbn, c.qty, b.title, b.price, (c.qty : ℚ) * b.price⟩)))

/-- Row shape of the checkout cart query (isbn, qty, current price). -/
structure SnapItem where
  isbn : String
  qty : ℤ
  price : ℚ
  deriving DecidableEq

/-- SELECT c.isbn, c.qty, b.price FROM cart c JOIN books b ... WHERE
c.userid = ?: the snapshot the checkout handler orders from. -/
def cartSnapshot (s : Store) (uid : Nat) : List SnapItem :=
  (s.cart.filter (fun c => c.userid == uid)).flatMap (fun c =>
    (s.books.filter (fun b => b.isbn == c.isbn)).map (fun b =>
      ⟨c.isbn, c.qty, b.price⟩))

/-- The odetails row the checkout loop inserts for one snapshot item:
`amount = qty * price`. -/
def detailOf (ono : Nat) (it : SnapItem) : ODetail :=
  ⟨ono, it.isbn, it.qty, (it.qty : ℚ) * it.price⟩

/-- The for-loop of the checkout handler: one INSERT INTO odetails per cart
item, each a separate db statement.  `idx` numbers the statements; the
statement numbered `failAt` throws, stopping the loop with every earlier
insert already durable (there is no enclosing transaction in the source).
Returns whether the loop completed, the store reached, and the next
statement number. -/
def insertDetails (ono : Nat) (items : List SnapItem) (s : Store) (idx : Nat)
    (failAt : Option Nat) : Bool × Store × Nat :=
  match items with
  | [] => (true, s, idx)
  | it :: rest =>
    if failAt == some idx then (false, s, idx)
    else insertDetails ono rest
      { s with odetails := s.odetails ++ [detailOf ono it] } (idx + 1) failAt

/-- POST /api/checkout.  Statements are numbered in program order: 0 the
members SELECT, 1 the cart SELECT, 2 the orders INSERT, 3... the odetails
INSERTs, and last the cart DELETE; the statement numbered `failAt` (if any)
throws and the handler answers with its catch-all 500.  A missing member row
only breaks at the orders INSERT, where `user.address` is first read. -/
def checkout (s : Store) (session : Option Nat) (today : Nat)
    (failAt : Option Nat) : Except ApiError Nat × Store :=
  match session with
  | none => (.error .notLoggedIn, s)
  | some uid =>
    if failAt == some 0 then (.error .checkoutFailed, s)
    else
      let user? := (s.members.filter (fun m => m.userid == uid)).head?
      if failAt == some 1 then (.error .checkoutFailed, s)
      else
        let items := cartSnapshot s uid
        if items.isEmpty then (.error .cartEmpty, s)
        else
          match user? with
          | none => (.error .checkoutFailed, s)
          | some user =>
            if failAt == some 2 then (.error .checkoutFailed, s)
            else
              let orderId := s.nextOno
              let s2 := { s with
                orders := s.orders ++
                  [⟨orderId, uid, today, user.address, user.city, user.zip⟩],
                nextOno := s.nextOno + 1 }
              match insertDetails orderId items s2 3 failAt with
              | (false, s3, _) => (.error .checkoutFailed, s3)
              | (true, s3, idx) =>
                if failAt == some idx then (.error .checkoutFailed, s3)
                else
                  (.ok orderId,
                   { s3 with cart := s3.cart.filter (fun c => !(c.userid == uid)) })

/-- Row shape of the order header returned by GET /api/order/:orderId
(order joined with the member owning it). -/
structure OrderView where
  order : Order
  fname : String
  lname : String
  deriving DecidableEq

/-- Row shape of the odetails part of GET /api/order/:orderId. -/
structure DetailView where
  detail : ODetail
  title : String
  deriving DecidableEq

/-- GET /api/order/:orderId: the order is looked up with `WHERE o.ono = ?
AND o.userid = ?` joined against `members`; an empty result is answered with
404 whether the order belongs to someone else or does not exist. -/
def getOrder (s : Store) (session : Option Nat) (orderId : Nat) :
    Except ApiError (OrderView × List DetailView) :=
  match session with
  | none => .error .notLoggedIn
  | some uid =>
    let orders := (s.orders.filter (fun o => o.ono == orderId && o.userid == uid)).flatMap
      (fun o => (s.members.filter (fun m => m.userid == o.userid)).map
        (fun m => OrderView.mk o m.fname m.lname))
    match orders.head? with
    | none => .error .orderNotFound
    | some ov =>
      let details := (s.odetails.filter (fun d => d.ono == orderId)).flatMap
        (fun d => (s.books.filter (fun b => b.isbn == d.isbn)).map
          (fun b => DetailView.mk d b.title))
      .ok (ov, details)

/-- Email test of `validateEmail`: the regex
`^[^\s@]+@[^\s@]+\.[^\s@]+$` matches exactly the whitespace-free strings
with a single `@`, a nonempty local part, and a dot strictly inside the
part after the `@`. -/
def validEmail (e : String) : Bool :=
  let cs := e.data
  cs.all (fun c => !c.isWhitespace) &&
  (cs.filter (fun c => c == '@')).length == 1 &&
  !(cs.takeWhile (fun c => !(c == '@'))).isEmpty &&
  ((((cs.dropWhile (fun c => !(c == '@'))).drop 1).drop 1).dropLast.contains '.')

/-- Zip test of `validateZip`: the regex `^\d{5}$`. -/
def validZip (z : String) : Bool :=
  z.data.length == 5 && z.data.all Char.isDigit

/-- POST /api/register: validations in source order (email format, zip
format, password length), then the duplicate-email SELECT, then the INSERT
storing `parseInt(zip)` (its digit value, since zip was validated) and the
bcrypt hash of the password, abstracted by the `hash` parameter. -/
def register (s : Store) (hash : String → String)
    (fname lname address city zip phone email password : String) :
    Except ApiError Unit × Store :=
  if !validEmail email then (.error .invalidEmailFormat, s)
  else if !validZip zip then (.error .invalidZip, s)
  else if password.length < 6 then (.error .shortPassword, s)
  else
    let existing := s.members.filter (fun m => m.email == email)
    if !existing.isEmpty then (.error .emailExists, s)
    else
      (.ok (),
       { s with
         members := s.members ++
           [⟨s.nextUserId, fname, lname, address, city,
             (digitsToNat zip.data : ℤ), phone, email, hash password⟩],
         nextUserId := s.nextUserId + 1 })

/-- Character-list test used to model `LIKE pattern%`. -/
def startsWithChars : List Char → List Char → Bool
  | [], _ => true
  | _ :: _, [] => false
  | p :: ps, t :: ts => p == t && startsWithChars ps ts

/-- Character-list test used to model `LIKE %pattern%`. -/
def containsChars : List Char → List Char → Bool
  | pat, [] => pat.isEmpty
  | pat, t :: ts => startsWithChars pat (t :: ts) || containsChars pat ts

/-- ASCII lower-casing used to model SQL LOWER. -/
def lowerChars (cs : List Char) : List Char :=
  cs.map Char.toLower

/-- Response shape of the paginated search endpoints. -/
structure SearchResult where
  books : List Book
  total : Nat
  page : Nat
  totalPages : ℤ
  deriving DecidableEq

/-- Pagination shared by the three search endpoints: the LIMIT/OFFSET
window with offset `(page - 1) * limit` over the matching rows, and
`totalPages = Math.ceil(total / limit)` (exact division under the ceiling,
as JS computes it on these integer inputs). -/
def paginate (ms : List Book) (page limit : Nat) : SearchResult :=
  { books := (ms.drop ((page - 1) * limit)).take limit
    total := ms.length
    page := page
    totalPages := ⌈(ms.length : ℚ) / (limit : ℚ)⌉ }

/-- GET /api/books/subject/:subject — exact subject match. -/
def searchBySubject (s : Store) (subject : String) (page limit : Nat) :
    SearchResult :=
  paginate (s.books.filter (fun b => b.subject == subject)) page limit

/-- GET /api/books/author/:author — `LOWER(author) LIKE LOWER(?)` with the
parameter `author + change percent`, a case-insensitive starts-with match. -/
def searchByAuthor (s : Store) (author : String) (page limit : Nat) :
    SearchResult :=
  paginate (s.books.filter (fun b =>
    startsWithChars (lowerChars author.data) (lowerChars b.author.data))) page limit

/-- GET /api/books/title/:title — case-insensitive substring match. -/
def searchByTitle (s : Store) (title : String) (page limit : Nat) :
    SearchResult :=
  paginate (s.books.filter (fun b =>
    containsChars (lowerChars title.data) (lowerChars b.title.data))) page limit

/-- Concrete store with one registered member and two books, used to
instantiate hypothesis-bearing theorems (empty cart). -/
def demoStore : Store where
  members := [⟨1, "Ann", "Li", "1 Main St", "Springfield", 55555, "555-0100",
               "ann@example.com", "hash0"⟩]
  books := [⟨"b1", "Logic", "Smith, John", "Science", 10⟩,
            ⟨"b2", "Sets", "Jones, Mary", "Science", 11 / 2⟩]
  cart := []
  orders := []
  odetails := []
  nextUserId := 2
  nextOno := 1

/-- The same concrete store with member 1 holding two cart lines. -/
def demoStoreFull : Store :=
  { demoStore with cart := [⟨1, "b1", 5⟩, ⟨1, "b2", 1⟩] }

/-- C6: an addItem call whose qty coerces to a number below 1 (in
particular qty = 0 and qty = -1) is rejected with the invalid-quantity
error, with the store unchanged and zero db statements issued — the
rejection happens before any store access. -/
theorem addToCart_quantity_floor (s : Store) (uid : Nat) (isbn : String)
    (qty : JSQty) (x : ℚ) (hx : jsToNumber qty = some x) (h1 : x < 1) :
    addToCart s (some uid) isbn qty = ⟨.error .invalidQuantity, s, 0⟩ := by
  have hlt : jsLtOne qty = true := by
    unfold jsLtOne
    rw [hx]
    simp [h1]
  simp [addToCart, hlt]

/-- Witness: the quantity-floor theorem applied at qty = 0 on the concrete
store. -/
theorem addToCart_quantity_floor_witness :
    addToCart demoStore (some 1) "b1" (.num 0) =
      ⟨.error .invalidQuantity, demoStore, 0⟩ :=
  addToCart_quantity_floor demoStore 1 "b1" (.num 0) 0 rfl (by norm_num)

/-- C4: checkout for a user with no cart lines (and no injected store
fault) fails with the empty-cart error and returns the store exactly as it
was: no order row, no odetails row, and an untouched cart. -/
theorem checkout_empty_cart (s : Store) (uid : Nat) (today : Nat)
    (h : s.cart.filter (fun c => c.userid == uid) = []) :
    checkout s (some uid) today none = (.error .cartEmpty, s) := by
  simp [checkout, cartSnapshot, h]

/-- Witness: empty-cart checkout on the concrete store. -/
theorem checkout_empty_cart_witness :
    checkout demoStore (some 1) 0 none = (.error .cartEmpty, demoStore) :=
  checkout_empty_cart demoStore 1 0 rfl

/-- C7: an order owned by u1 is answered to any other logged-in user u2
with exactly the not-found error, and an order id that exists for nobody is
answered with the same error — a non-owner cannot distinguish someone
else's order from a nonexistent one.  The uniqueness hypothesis is the
primary-key property of `orders.ono`. -/
theorem getOrder_ownership (s : Store) (o : Order) (u2 : Nat)
    (ho : o ∈ s.orders) (hown : o.userid ≠ u2)
    (huniq : ∀ o2 ∈ s.orders, o2.ono = o.ono → o2 = o) :
    getOrder s (some u2) o.ono = .error .orderNotFound ∧
    ∀ oid2, (∀ o2 ∈ s.orders, o2.ono ≠ oid2) →
      getOrder s (some u2) oid2 = .error .orderNotFound := by
  constructor
  · have hfil : s.orders.filter (fun o2 => o2.ono == o.ono && o2.userid == u2) = [] := by
      rw [List.filter_eq_nil_iff]
      intro o2 h2
      simp only [Bool.and_eq_true, beq_iff_eq, not_and]
      intro hono
      have := huniq o2 h2 hono
      subst this
      exact hown
    simp [getOrder, hfil]
  · intro oid2 hnone
    have hfil : s.orders.filter (fun o2 => o2.ono == oid2 && o2.userid == u2) = [] := by
      rw [List.filter_eq_nil_iff]
      intro o2 h2
      simp only [Bool.and_eq_true, beq_iff_eq, not_and]
      intro hono
      exact absurd hono (hnone o2 h2)
    simp [getOrder, hfil]

/-- Witness: ownership isolation on a concrete store holding one order of
user 1, queried by user 2. -/
theorem getOrder_ownership_witness :
    getOrder { demoStore with
        orders := [⟨1, 1, 0, "1 Main St", "Springfield", 55555⟩], nextOno := 2 }
      (some 2) 1 = .error .orderNotFound ∧
    getOrder { demoStore with
        orders := [⟨1, 1, 0, "1 Main St", "Springfield", 55555⟩], nextOno := 2 }
      (some 2) 7 = .error .orderNotFound := by
  have h := getOrder_ownership
    { demoStore with orders := [⟨1, 1, 0, "1 Main St", "Springfield", 55555⟩], nextOno := 2 }
    ⟨1, 1, 0, "1 Main St", "Springfield", 55555⟩ 2
    (by simp) (by decide) (by simp)
  exact ⟨h.1, h.2 7 (by simp)⟩

/-- Truncation of an integer-valued rational is that integer. -/
theorem jsTrunc_intCast (n : ℤ) : jsTrunc (n : ℚ) = n := by
  unfold jsTrunc
  by_cases h : (0 : ℚ) ≤ (n : ℚ)
  · simp [h, Int.floor_intCast]
  · rw [if_neg h, ← Int.cast_neg, Int.floor_intCast, neg_neg]

/-- An integer qty of at least 1 passes the `!qty || qty < 1` validation. -/
theorem jsValid_intCast (n : ℤ) (h : 1 ≤ n) :
    (jsFalsy (.num (n : ℚ)) || jsLtOne (.num (n : ℚ))) = false := by
  have hn0 : ¬ ((n : ℚ) = 0) := by
    intro h0
    rw [show ((0 : ℚ) = ((0 : ℤ) : ℚ)) from rfl] at h0
    have := Int.cast_injective h0
    omega
  have hn1 : ¬ ((n : ℚ) < 1) := by
    push_neg
    exact_mod_cast h
  simp [jsFalsy, jsLtOne, jsToNumber, hn0, hn1]

/-- The cart key only looks at `userid` and `isbn`, never at the quantity. -/
theorem cartKey_qty_update (uid : Nat) (isbn : String) (l : CartLine) (x : ℤ) :
    cartKey uid isbn { l with qty := x } = cartKey uid isbn l := rfl

/-- Filtering the cart for a key after the UPDATE statement incremented the
quantity of every line with that key. -/
theorem filter_map_addQty (c : List CartLine) (uid : Nat) (isbn : String) (n : ℤ) :
    (c.map (fun l => if cartKey uid isbn l then { l with qty := l.qty + n } else l)).filter
      (cartKey uid isbn) =
    (c.filter (cartKey uid isbn)).map (fun l => { l with qty := l.qty + n }) := by
  induction c with
  | nil => rfl
  | cons a t ih =>
    by_cases h : cartKey uid isbn a
    · simp only [List.map_cons, List.filter_cons, if_pos h, cartKey_qty_update, h,
        if_true, List.map, ih]
    · simp only [List.map_cons, List.filter_cons, if_neg h, h, Bool.false_eq_true,
        if_false, ih]

/-- C3: merge-on-add.  Starting from a cart with no line for (uid, isbn),
a successful addItem with integer quantity q1 inserts exactly one line for
that key carrying quantity q1, and a second successful addItem with q2 (no
clear or checkout in between) leaves exactly one line for the key carrying
quantity q1 + q2. -/
theorem addToCart_merge (s : Store) (uid : Nat) (isbn : String) (q1 q2 : ℤ)
    (h0 : s.cart.filter (cartKey uid isbn) = [])
    (h1 : 1 ≤ q1) (h2 : 1 ≤ q2) :
    (addToCart s (some uid) isbn (.num (q1 : ℚ))).res = .ok () ∧
    (addToCart s (some uid) isbn (.num (q1 : ℚ))).store.cart.filter (cartKey uid isbn) =
      [⟨uid, isbn, q1⟩] ∧
    (addToCart (addToCart s (some uid) isbn (.num (q1 : ℚ))).store
        (some uid) isbn (.num (q2 : ℚ))).res = .ok () ∧
    (addToCart (addToCart s (some uid) isbn (.num (q1 : ℚ))).store
        (some uid) isbn (.num (q2 : ℚ))).store.cart.filter (cartKey uid isbn) =
      [⟨uid, isbn, q1 + q2⟩] := by
  have hkey : cartKey uid isbn ⟨uid, isbn, q1⟩ = true := by simp [cartKey]
  have step1 : addToCart s (some uid) isbn (.num (q1 : ℚ)) =
      ⟨.ok (), { s with cart := s.cart ++ [⟨uid, isbn, q1⟩] }, 2⟩ := by
    simp [addToCart, jsValid_intCast q1 h1, h0, jsParseInt, jsTrunc_intCast]
  have hfil1 : ({ s with cart := s.cart ++ [⟨uid, isbn, q1⟩] } : Store).cart.filter
      (cartKey uid isbn) = [⟨uid, isbn, q1⟩] := by
    simp [List.filter_append, h0, hkey]
  have step2 : addToCart { s with cart := s.cart ++ [⟨uid, isbn, q1⟩] }
      (some uid) isbn (.num (q2 : ℚ)) =
      ⟨.ok (),
       { s with cart := (s.cart ++ [CartLine.mk uid isbn q1]).map (fun l : CartLine =>
          if cartKey uid isbn l then { l with qty := l.qty + q2 } else l) },
       2⟩ := by
    simp only [addToCart, jsValid_intCast q2 h2, Bool.false_eq_true, if_false,
      jsParseInt, jsTrunc_intCast]
    rw [hfil1]
    rfl
  refine ⟨by rw [step1], by rw [step1]; exact hfil1, by rw [step1, step2], ?_⟩
  rw [step1, step2]
  show ((s.cart ++ [CartLine.mk uid isbn q1]).map fun l : CartLine =>
    if cartKey uid isbn l then { l with qty := l.qty + q2 } else l).filter
      (cartKey uid isbn) = [⟨uid, isbn, q1 + q2⟩]
  rw [filter_map_addQty, List.filter_append, h0, List.nil_append]
  simp [hkey]

/-- Witness: the merge theorem at q1 = 2, q2 = 3 on the concrete store. -/
theorem addToCart_merge_witness :
    (addToCart demoStore (some 1) "b1" (.num 2)).res = .ok () ∧
    (addToCart demoStore (some 1) "b1" (.num 2)).store.cart.filter (cartKey 1 "b1") =
      [⟨1, "b1", 2⟩] ∧
    (addToCart (addToCart demoStore (some 1) "b1" (.num 2)).store
        (some 1) "b1" (.num 3)).res = .ok () ∧
    (addToCart (addToCart demoStore (some 1) "b1" (.num 2)).store
        (some 1) "b1" (.num 3)).store.cart.filter (cartKey 1 "b1") =
      [⟨1, "b1", 5⟩] := by
  simpa using addToCart_merge demoStore 1 "b1" 2 3 rfl (by decide) (by decide)

/-- The rational ceiling `Math.ceil(t / l)` of a quotient of naturals is
the closed integer form `(t + l - 1) / l`. -/
theorem ceil_cast_div_eq (t l : ℕ) (hl : 1 ≤ l) :
    ⌈(t : ℚ) / (l : ℚ)⌉ = (((t + l - 1) / l : ℕ) : ℤ) := by
  have hl0 : (0 : ℚ) < (l : ℚ) := by
    have h0 : (0 : ℕ) < l := hl
    exact_mod_cast h0
  have hA : ((t + l - 1) / l) * l ≤ t + l - 1 := Nat.div_mul_le_self _ _
  have hB : t + l - 1 < ((t + l - 1) / l + 1) * l := by
    rw [← Nat.div_lt_iff_lt_mul (by omega : 0 < l)]
    omega
  have hB2 : t ≤ ((t + l - 1) / l) * l := by
    rw [Nat.add_mul, Nat.one_mul] at hB
    generalize ((t + l - 1) / l) * l = X at hB ⊢
    omega
  have hcast : ((t + l - 1 : ℕ) : ℚ) = (t : ℚ) + (l : ℚ) - 1 := by
    rw [Nat.cast_sub (by omega : 1 ≤ t + l), Nat.cast_add, Nat.cast_one]
  rw [Int.ceil_eq_iff]
  constructor
  · rw [lt_div_iff₀ hl0]
    have hAq : ((((t + l - 1) / l : ℕ)) : ℚ) * (l : ℚ) ≤ (t : ℚ) + (l : ℚ) - 1 := by
      have h2 : (((((t + l - 1) / l) * l : ℕ)) : ℚ) ≤ ((t + l - 1 : ℕ) : ℚ) := by
        exact_mod_cast hA
      rw [hcast] at h2
      push_cast at h2
      exact h2
    rw [Int.cast_natCast, sub_mul, one_mul]
    linarith
  · rw [div_le_iff₀ hl0]
    have hBq : (t : ℚ) ≤ ((((t + l - 1) / l : ℕ)) : ℚ) * (l : ℚ) := by
      exact_mod_cast hB2
    rw [Int.cast_natCast]
    linarith

/-- The pagination shared by the search endpoints: window, total, closed
form of totalPages, and empty page past the end. -/
theorem paginate_spec (ms : List Book) (page ps : Nat) (hps : 1 ≤ ps) :
    (paginate ms page ps).books = (ms.drop ((page - 1) * ps)).take ps ∧
    (paginate ms page ps).total = ms.length ∧
    (paginate ms page ps).totalPages = ((ms.length + ps - 1) / ps : ℕ) ∧
    (ms.length < (page - 1) * ps → (paginate ms page ps).books = []) := by
  refine ⟨rfl, rfl, ?_, ?_⟩
  · show ⌈(ms.length : ℚ) / (ps : ℚ)⌉ = ((ms.length + ps - 1) / ps : ℕ)
    exact ceil_cast_div_eq ms.length ps hps
  · intro h
    show (ms.drop ((page - 1) * ps)).take ps = []
    rw [List.drop_eq_nil_of_le (le_of_lt h)]
    exact List.take_nil

/-- C8: for page ≥ 1 and pageSize ≥ 1, the subject search and the author
search both return the window starting at offset (page-1)*pageSize over the
matching rows, report the match count as total, report totalPages =
ceil(total/pageSize) — equal to the closed integer form
(total + pageSize - 1) / pageSize — and return an empty sequence rather
than an error when the offset exceeds the match count; both searches are
pure reads of the store. -/
theorem search_pagination (s : Store) (subject author : String) (page ps : Nat)
    (hpage : 1 ≤ page) (hps : 1 ≤ ps) :
    ((searchBySubject s subject page ps).books =
        ((s.books.filter (fun b => b.subject == subject)).drop ((page - 1) * ps)).take ps ∧
      (searchBySubject s subject page ps).total =
        (s.books.filter (fun b => b.subject == subject)).length ∧
      (searchBySubject s subject page ps).totalPages =
        (((s.books.filter (fun b => b.subject == subject)).length + ps - 1) / ps : ℕ) ∧
      ((s.books.filter (fun b => b.subject == subject)).length < (page - 1) * ps →
        (searchBySubject s subject page ps).books = [])) ∧
    ((searchByAuthor s author page ps).books =
        ((s.books.filter (fun b =>
          startsWithChars (lowerChars author.data) (lowerChars b.author.data))).drop
            ((page - 1) * ps)).take ps ∧
      (searchByAuthor s author page ps).total =
        (s.books.filter (fun b =>
          startsWithChars (lowerChars author.data) (lowerChars b.author.data))).length ∧
      (searchByAuthor s author page ps).totalPages =
        (((s.books.filter (fun b =>
          startsWithChars (lowerChars author.data) (lowerChars b.author.data))).length
            + ps - 1) / ps : ℕ) ∧
      ((s.books.filter (fun b =>
          startsWithChars (lowerChars author.data) (lowerChars b.author.data))).length <
            (page - 1) * ps →
        (searchByAuthor s author page ps).books = [])) :=
  ⟨paginate_spec _ page ps hps, paginate_spec _ page ps hps⟩

/-- Witness: pagination at page 2, pageSize 1 on the concrete store (two
Science books; the author pattern matches one row). -/
theorem search_pagination_witness :
    ((searchBySubject demoStore "Science" 2 1).books =
        ((demoStore.books.filter (fun b => b.subject == "Science")).drop ((2 - 1) * 1)).take 1 ∧
      (searchBySubject demoStore "Science" 2 1).total =
        (demoStore.books.filter (fun b => b.subject == "Science")).length ∧
      (searchBySubject demoStore "Science" 2 1).totalPages =
        (((demoStore.books.filter (fun b => b.subject == "Science")).length + 1 - 1) / 1 : ℕ) ∧
      ((demoStore.books.filter (fun b => b.subject == "Science")).length < (2 - 1) * 1 →
        (searchBySubject demoStore "Science" 2 1).books = [])) ∧
    ((searchByAuthor demoStore "smith" 2 1).books =
        ((demoStore.books.filter (fun b =>
          startsWithChars (lowerChars "smith".data) (lowerChars b.author.data))).drop
            ((2 - 1) * 1)).take 1 ∧
      (searchByAuthor demoStore "smith" 2 1).total =
        (demoStore.books.filter (fun b =>
          startsWithChars (lowerChars "smith".data) (lowerChars b.author.data))).length ∧
      (searchByAuthor demoStore "smith" 2 1).totalPages =
        (((demoStore.books.filter (fun b =>
          startsWithChars (lowerChars "smith".data) (lowerChars b.author.data))).length
            + 1 - 1) / 1 : ℕ) ∧
      ((demoStore.books.filter (fun b =>
          startsWithChars (lowerChars "smith".data) (lowerChars b.author.data))).length <
            (2 - 1) * 1 →
        (searchByAuthor demoStore "smith" 2 1).books = [])) :=
  search_pagination demoStore "Science" "smith" 2 1 (by decide) (by decide)

/-- The odetails loop never touches members, books, cart or orders. -/
theorem insertDetails_cart (ono : Nat) (items : List SnapItem) (s : Store)
    (idx : Nat) (fa : Option Nat) :
    (insertDetails ono items s idx fa).2.1.cart = s.cart := by
  induction items generalizing s idx with
  | nil => rfl
  | cons it rest ih =>
    rw [insertDetails]
    by_cases hf : (fa == some idx) = true
    · rw [if_pos hf]
    · rw [if_neg hf]
      exact ih _ _

/-- A completed odetails loop appended exactly one row per snapshot item
and advanced the statement counter past them. -/
theorem insertDetails_true (ono : Nat) (items : List SnapItem) (s : Store)
    (idx : Nat) (fa : Option Nat) (s2 : Store) (k : Nat)
    (h : insertDetails ono items s idx fa = (true, s2, k)) :
    s2 = { s with odetails := s.odetails ++ items.map (detailOf ono) } ∧
      k = idx + items.length := by
  induction items generalizing s idx with
  | nil =>
    rw [insertDetails] at h
    simp only [Prod.mk.injEq, true_and] at h
    obtain ⟨h1, h2⟩ := h
    subst h1
    subst h2
    exact ⟨by simp, by simp⟩
  | cons it rest ih =>
    rw [insertDetails] at h
    by_cases hf : (fa == some idx) = true
    · rw [if_pos hf] at h
      simp at h
    · rw [if_neg hf] at h
      obtain ⟨h1, h2⟩ := ih _ _ h
      subst h1
      refine ⟨?_, by simp only [List.length_cons]; omega⟩
      simp [List.append_assoc]

/-- Success shape of checkout: the single `.ok` exit of the handler fully
determines the committed store: the order row appended, one odetails row
per snapshot item, the user's cart rows deleted, and the order counter
advanced. -/
theorem checkout_ok_shape (s : Store) (uid today : Nat) (fa : Option Nat)
    (oid : Nat) (s2 : Store)
    (h : checkout s (some uid) today fa = (.ok oid, s2)) :
    oid = s.nextOno ∧
    ∃ user, (s.members.filter (fun m => m.userid == uid)).head? = some user ∧
      s2 = { s with
        orders := s.orders ++
          [⟨s.nextOno, uid, today, user.address, user.city, user.zip⟩],
        odetails := s.odetails ++ (cartSnapshot s uid).map (detailOf s.nextOno),
        cart := s.cart.filter (fun c => !(c.userid == uid)),
        nextOno := s.nextOno + 1 } := by
  simp only [checkout] at h
  split at h
  next => simp at h
  next =>
    split at h
    next => simp at h
    next =>
      split at h
      next => simp at h
      next =>
        split at h
        next => simp at h
        next user huser =>
          split at h
          next => simp at h
          next =>
            split at h
            next => simp at h
            next s4 k4 heq =>
              split at h
              next => simp at h
              next =>
                simp only [Prod.mk.injEq, Except.ok.injEq] at h
                obtain ⟨h1, h2⟩ := h
                obtain ⟨hs4, -⟩ := insertDetails_true _ _ _ _ _ _ _ heq
                subst hs4
                exact ⟨h1.symm, user, huser, h2.symm⟩

/-- Every failure exit of checkout leaves the cart rows untouched: the only
statement that modifies the cart is the final DELETE, which runs after the
order writes succeeded. -/
theorem checkout_error_cart (s : Store) (uid today : Nat) (fa : Option Nat)
    (e : ApiError) (s2 : Store)
    (h : checkout s (some uid) today fa = (.error e, s2)) : s2.cart = s.cart := by
  simp only [checkout] at h
  split at h
  next =>
    simp only [Prod.mk.injEq] at h
    rw [← h.2]
  next =>
    split at h
    next =>
      simp only [Prod.mk.injEq] at h
      rw [← h.2]
    next =>
      split at h
      next =>
        simp only [Prod.mk.injEq] at h
        rw [← h.2]
      next =>
        split at h
        next =>
          simp only [Prod.mk.injEq] at h
          rw [← h.2]
        next user huser =>
          split at h
          next =>
            simp only [Prod.mk.injEq] at h
            rw [← h.2]
          next =>
            split at h
            next s4 k4 heq =>
              simp only [Prod.mk.injEq] at h
              have hc := insertDetails_cart s.nextOno (cartSnapshot s uid)
                { s with
                  orders := s.orders ++
                    [⟨s.nextOno, uid, today, user.address, user.city, user.zip⟩],
                  nextOno := s.nextOno + 1 } 3 fa
              rw [heq] at hc
              have hc2 : s4.cart = s.cart := by simpa using hc
              rw [← h.2, hc2]
            next s4 k4 heq =>
              split at h
              next =>
                simp only [Prod.mk.injEq] at h
                have hc := insertDetails_cart s.nextOno (cartSnapshot s uid)
                  { s with
                    orders := s.orders ++
                      [⟨s.nextOno, uid, today, user.address, user.city, user.zip⟩],
                    nextOno := s.nextOno + 1 } 3 fa
                rw [heq] at hc
                have hc2 : s4.cart = s.cart := by simpa using hc
                rw [← h.2, hc2]
              next => simp at h

/-- Reading back rows of a user from a cart from which every row of that
user was deleted gives the empty list. -/
theorem filter_erased (c : List CartLine) (uid : Nat) :
    (c.filter (fun l => !(l.userid == uid))).filter (fun l => l.userid == uid) = [] := by
  induction c with
  | nil => rfl
  | cons a t ih =>
    by_cases hA : (a.userid == uid) = true
    · simp [List.filter_cons, hA, ih]
    · simp [List.filter_cons, hA, ih]

/-- C5: after a successful checkout the user's cart reads back as the empty
sequence, and a checkout that fails — under any injected statement failure,
hence in particular any failure before the commit completes — leaves the
cart rows exactly unchanged.  The DELETE runs only on the success path. -/
theorem checkout_cart_contract (s : Store) (uid today : Nat) (fa : Option Nat) :
    (∀ oid s2, checkout s (some uid) today fa = (.ok oid, s2) →
      getCart s2 (some uid) = .ok []) ∧
    (∀ e s2, checkout s (some uid) today fa = (.error e, s2) → s2.cart = s.cart) := by
  constructor
  · intro oid s2 h
    obtain ⟨-, user, -, hs2⟩ := checkout_ok_shape s uid today fa oid s2 h
    subst hs2
    simp [getCart, filter_erased]
  · intro e s2 h
    exact checkout_error_cart s uid today fa e s2 h

/-- Witness: the cart contract on the concrete store — a fault-free
checkout empties the cart; a checkout whose first odetails INSERT fails
leaves the cart as it was. -/
theorem checkout_cart_contract_witness :
    getCart (checkout demoStoreFull (some 1) 0 none).2 (some 1) = .ok [] ∧
    (checkout demoStoreFull (some 1) 0 (some 3)).2.cart = demoStoreFull.cart := by
  refine ⟨(checkout_cart_contract demoStoreFull 1 0 none).1 1
      (checkout demoStoreFull (some 1) 0 none).2 ?_,
    (checkout_cart_contract demoStoreFull 1 0 (some 3)).2 .checkoutFailed
      (checkout demoStoreFull (some 1) 0 (some 3)).2 ?_⟩
  · rfl
  · rfl

/-- C2: a committed order's odetails rows are exactly one row per snapshot
item, each with amount = qty * unitPrice taken from the snapshot at build
time, and the sum of the committed amounts equals the sum of
qty_i * unitPrice_i over that snapshot, in exact arithmetic.  The model is
a pure function, so recomputing on the same inputs reproduces identical
amounts.  The freshness hypothesis is the AUTO_INCREMENT property of the
order counter. -/
theorem checkout_amounts (s : Store) (uid today : Nat) (oid : Nat) (s2 : Store)
    (hfresh : ∀ d ∈ s.odetails, d.ono ≠ s.nextOno)
    (h : checkout s (some uid) today none = (.ok oid, s2)) :
    s2.odetails.filter (fun d => d.ono == oid) =
      (cartSnapshot s uid).map (detailOf oid) ∧
    ((s2.odetails.filter (fun d => d.ono == oid)).map (fun d => d.amount)).sum =
      ((cartSnapshot s uid).map (fun it => (it.qty : ℚ) * it.price)).sum := by
  obtain ⟨hoid, user, -, hs2⟩ := checkout_ok_shape s uid today none oid s2 h
  subst hoid
  subst hs2
  have hfil : (s.odetails ++ (cartSnapshot s uid).map (detailOf s.nextOno)).filter
      (fun d => d.ono == s.nextOno) = (cartSnapshot s uid).map (detailOf s.nextOno) := by
    rw [List.filter_append]
    have h1 : s.odetails.filter (fun d => d.ono == s.nextOno) = [] := by
      rw [List.filter_eq_nil_iff]
      intro d hd
      simpa using hfresh d hd
    have h2 : ((cartSnapshot s uid).map (detailOf s.nextOno)).filter
        (fun d => d.ono == s.nextOno) = (cartSnapshot s uid).map (detailOf s.nextOno) := by
      rw [List.filter_eq_self]
      intro d hd
      obtain ⟨it, -, rfl⟩ := List.mem_map.mp hd
      simp [detailOf]
    rw [h1, h2, List.nil_append]
  refine ⟨hfil, ?_⟩
  rw [show (({ s with
      orders := s.orders ++
        [⟨s.nextOno, uid, today, user.address, user.city, user.zip⟩],
      odetails := s.odetails ++ (cartSnapshot s uid).map (detailOf s.nextOno),
      cart := s.cart.filter (fun c => !(c.userid == uid)),
      nextOno := s.nextOno + 1 } : Store).odetails.filter (fun d => d.ono == s.nextOno))
    = (cartSnapshot s uid).map (detailOf s.nextOno) from hfil, List.map_map]
  rfl

/-- Witness: the amount consistency theorem on the concrete store (two cart
lines, prices 10 and 11/2). -/
theorem checkout_amounts_witness :
    (checkout demoStoreFull (some 1) 0 none).2.odetails.filter (fun d => d.ono == 1) =
      (cartSnapshot demoStoreFull 1).map (detailOf 1) ∧
    (((checkout demoStoreFull (some 1) 0 none).2.odetails.filter
        (fun d => d.ono == 1)).map (fun d => d.amount)).sum =
      ((cartSnapshot demoStoreFull 1).map (fun it => (it.qty : ℚ) * it.price)).sum :=
  checkout_amounts demoStoreFull 1 0 1 (checkout demoStoreFull (some 1) 0 none).2
    (by simp [demoStoreFull, demoStore]) rfl

/-- C1 (violated by the source): the checkout handler runs its orders
INSERT and each odetails INSERT as separate statements with no enclosing
transaction, so when the first odetails INSERT (statement 3) fails, the
already-written order row stays durable while no odetails row exists — an
observable post-checkout state in which the order lacks all of its lines. -/
theorem checkout_partial_write :
    (checkout demoStoreFull (some 1) 0 (some 3)).1 = .error .checkoutFailed ∧
    ((checkout demoStoreFull (some 1) 0 (some 3)).2.orders.filter
      (fun o => o.ono == 1)).length = 1 ∧
    (checkout demoStoreFull (some 1) 0 (some 3)).2.odetails = [] :=
  ⟨rfl, rfl, rfl⟩

/-- Counterexample to the literal C9 claim: a registration request whose
email already exists in the members table but whose password is shorter
than 6 characters is rejected by the earlier password validation, not with
the duplicate-email error (no row is inserted either way). -/
theorem register_dup_email_cex :
    (∃ m ∈ demoStore.members, m.email = "ann@example.com") ∧
    register demoStore (fun p => p) "Bob" "Ng" "2 Oak" "Town" "55555" "555-0101"
      "ann@example.com" "123" = (.error .shortPassword, demoStore) ∧
    ApiError.shortPassword ≠ ApiError.emailExists := by
  refine ⟨⟨⟨1, "Ann", "Li", "1 Main St", "Springfield", 55555, "555-0100",
      "ann@example.com", "hash0"⟩, by simp [demoStore], rfl⟩, rfl, by decide⟩

/-- C9 amended: a registration request that passes the email-format, zip
and password validations and whose email already exists in the members
table fails with the duplicate-email error and returns the store unchanged:
no member row is inserted and the existing row is untouched. -/
theorem register_dup_email (s : Store) (hash : String → String)
    (fname lname address city zip phone email password : String)
    (hE : validEmail email = true) (hZ : validZip zip = true)
    (hP : ¬ password.length < 6)
    (hdup : ∃ m ∈ s.members, m.email = email) :
    register s hash fname lname address city zip phone email password =
      (.error .emailExists, s) := by
  have hfil : (s.members.filter (fun m => m.email == email)).isEmpty = false := by
    obtain ⟨m, hm, he⟩ := hdup
    rw [List.isEmpty_eq_false_iff_exists_mem]
    exact ⟨m, List.mem_filter.mpr ⟨hm, by simp [he]⟩⟩
  simp [register, hE, hZ, hP, hfil]

/-- Witness: the amended duplicate-email theorem at a request that passes
all validations, against the concrete store. -/
theorem register_dup_email_witness :
    register demoStore (fun p => p) "Bob" "Ng" "2 Oak" "Town" "55555" "555-0101"
      "ann@example.com" "123456" = (.error .emailExists, demoStore) :=
  register_dup_email demoStore (fun p => p) "Bob" "Ng" "2 Oak" "Town" "55555"
    "555-0101" "ann@example.com" "123456" rfl rfl (by decide)
    ⟨⟨1, "Ann", "Li", "1 Main St", "Springfield", 55555, "555-0100",
      "ann@example.com", "hash0"⟩, by simp [demoStore], rfl⟩

/-- Counterexample to the literal C10 claim: the string qty ".5e1" coerces
to the number 5 ≥ 1 and passes the `!qty || qty < 1` validation, but
parseInt(".5e1") is NaN, so the cart write statement fails and the handler
answers its generic 500 — the call does not succeed and no quantity is
stored. -/
theorem addToCart_parseInt_cex :
    jsToNumber (.str ".5e1") = some 5 ∧
    jsParseInt (.str ".5e1") = none ∧
    (addToCart demoStore (some 1) "b1" (.str ".5e1")).res = .error .cartAddFailed ∧
    (addToCart demoStore (some 1) "b1" (.str ".5e1")).store = demoStore := by
  have hnum : jsToNumber (.str ".5e1") = some 5 := by
    simp [jsToNumber, jsStrToNumber, trimChars, jsDecLiteral, digitsToNat]
  have hcond : (jsFalsy (.str ".5e1") || jsLtOne (.str ".5e1")) = false := by
    rw [jsLtOne, hnum]
    norm_num [jsFalsy]
    decide
  have hpn : jsParseInt (.str ".5e1") = none := rfl
  refine ⟨hnum, rfl, ?_, ?_⟩
  · simp [addToCart, hcond, hpn, demoStore]
  · simp [addToCart, hcond, hpn, demoStore]

/-- C10 amended: an addItem call with a non-integer or string qty whose
coerced numeric value is at least 1 succeeds with the stored or added
quantity equal to parseInt(qty), provided parseInt(qty) is a number (qty
has leading digits); a value such as ".5e1" passes validation but makes
the write fail, since its parseInt is NaN. -/
theorem addToCart_truncates (s : Store) (uid : Nat) (isbn : String)
    (qty : JSQty) (x : ℚ) (n : ℤ)
    (hx : jsToNumber qty = some x) (h1 : 1 ≤ x) (hp : jsParseInt qty = some n) :
    (addToCart s (some uid) isbn qty).res = .ok () ∧
    (addToCart s (some uid) isbn qty).store.cart.filter (cartKey uid isbn) =
      (if (s.cart.filter (cartKey uid isbn)).isEmpty then [⟨uid, isbn, n⟩]
       else (s.cart.filter (cartKey uid isbn)).map
         (fun l => { l with qty := l.qty + n })) := by
  have hnot : ¬ (x < 1) := not_lt.mpr h1
  have hfal : jsFalsy qty = false := by
    cases qty with
    | num q =>
      have hq : q = x := by simpa [jsToNumber] using hx
      subst hq
      simp only [jsFalsy, beq_eq_false_iff_ne, ne_eq]
      intro h0
      rw [h0] at h1
      norm_num at h1
    | str st =>
      by_cases hst : st = ""
      · subst hst
        have h0 : some (0 : ℚ) = some x := by
          simpa [jsToNumber, jsStrToNumber, trimChars] using hx
        rw [show x = 0 from (Option.some_injective ℚ h0).symm] at h1
        norm_num at h1
      · simp [jsFalsy, hst]
  have hlt : jsLtOne qty = false := by
    rw [jsLtOne, hx]
    simp [hnot]
  have hcond : (jsFalsy qty || jsLtOne qty) = false := by
    rw [hfal, hlt]
    rfl
  have hkey : cartKey uid isbn ⟨uid, isbn, n⟩ = true := by simp [cartKey]
  by_cases hemp : (s.cart.filter (cartKey uid isbn)).isEmpty = true
  · have hnil : s.cart.filter (cartKey uid isbn) = [] := by
      rwa [List.isEmpty_iff] at hemp
    constructor
    · simp [addToCart, hcond, hemp, hp]
    · simp only [addToCart, hcond, Bool.false_eq_true, if_false, hemp, if_true, hp]
      rw [List.filter_append, hnil, List.nil_append]
      simp [hkey]
  · constructor
    · simp [addToCart, hcond, hemp, hp]
    · simp only [addToCart, hcond, Bool.false_eq_true, if_false, hemp, hp]
      exact filter_map_addQty s.cart uid isbn n

/-- Witness: the truncation theorem at qty = "1.5" (coerces to 3/2,
parseInt 1) against the concrete store with an empty cart. -/
theorem addToCart_truncates_witness :
    (addToCart demoStore (some 1) "b1" (.str "1.5")).res = .ok () ∧
    (addToCart demoStore (some 1) "b1" (.str "1.5")).store.cart.filter
      (cartKey 1 "b1") =
      (if (demoStore.cart.filter (cartKey 1 "b1")).isEmpty then [⟨1, "b1", 1⟩]
       else (demoStore.cart.filter (cartKey 1 "b1")).map
         (fun l => { l with qty := l.qty + 1 })) :=
  addToCart_truncates demoStore 1 "b1" (.str "1.5") (3 / 2) 1
    (by simp [jsToNumber, jsStrToNumber, trimChars, jsDecLiteral, digitsToNat]; norm_num)
    (by norm_num) rfl
